import Mathlib

/-!
Verification of the star-api donation matching service (src/main.py).

The embedding models the records returned by the data store as Lean
structures, the pure scoring pipeline of find_best_match as a fold over
the candidate list, and the match_donation endpoint as a function from an
explicit database state (plus a fault-injection record standing for the
possibility that either persistence write raises) to an outcome paired
with the resulting database state.  Python floats are modelled as real
numbers; Python ints as integers.  math.sqrt is modelled by Real.sqrt,
which agrees with it on nonnegative arguments (the only ones reached in
the theorems below).
-/

namespace StarApi

/-- A school record (rows of the schools table joined into each demand). -/
structure School where
  location_lat : ℝ
  location_lng : ℝ

/-- A demand row, with its joined school, as find_best_match consumes it. -/
structure DemandRecord where
  demand_id : ℤ
  item_category : String
  item_name : String
  priority : ℤ
  quantity_needed : ℤ
  quantity_fulfilled : ℤ
  schools : School

/-- A donation row as match_donation consumes it. -/
structure Donation where
  donation_id : ℤ
  item_category : String
  item_name : String
  quantity : ℤ
  donor_lat : ℝ
  donor_lng : ℝ
  status : String

/-- Python math.radians: degrees to radians. -/
noncomputable def radians (x : ℝ) : ℝ := x * (Real.pi / 180)

/-- Python math.atan2 with its standard sign conventions (signed zeros are
collapsed to 0, which is all the development needs). -/
noncomputable def atan2 (y x : ℝ) : ℝ :=
  if 0 < x then Real.arctan (y / x)
  else if x < 0 ∧ 0 ≤ y then Real.arctan (y / x) + Real.pi
  else if x < 0 ∧ y < 0 then Real.arctan (y / x) - Real.pi
  else if x = 0 ∧ 0 < y then Real.pi / 2
  else if x = 0 ∧ y < 0 then -(Real.pi / 2)
  else 0

/-- calculate_distance from src/main.py lines 25-33: haversine great-circle
distance with Earth radius 6371 km. -/
noncomputable def calculate_distance (lat1 lon1 lat2 lon2 : ℝ) : ℝ :=
  let R : ℝ := 6371
  let dlat := radians (lat2 - lat1)
  let dlon := radians (lon2 - lon1)
  let a := Real.sin (dlat / 2) * Real.sin (dlat / 2) +
    Real.cos (radians lat1) * Real.cos (radians lat2) *
      Real.sin (dlon / 2) * Real.sin (dlon / 2)
  let c := 2 * atan2 (Real.sqrt a) (Real.sqrt (1 - a))
  R * c

/-- Scoring weight for priority (src/main.py line 37). -/
noncomputable def W_PRIORITY : ℝ := 0.5

/-- Scoring weight for distance (src/main.py line 38). -/
noncomputable def W_DISTANCE : ℝ := 0.3

/-- Scoring weight for name suitability (src/main.py line 39). -/
noncomputable def W_SUITABILITY : ℝ := 0.2

/-- Hard distance cutoff in kilometres (src/main.py line 40). -/
noncomputable def MAX_DISTANCE : ℝ := 200

/-- The score computed for one candidate (src/main.py lines 67-75):
distance score, priority score and suitability score, summed. -/
noncomputable def totalScore (donation : Donation) (demand : DemandRecord)
    (dist : ℝ) : ℝ :=
  let distance_score := (1 - dist / MAX_DISTANCE) * W_DISTANCE
  let priority_score := ((demand.priority : ℝ) / 5) * W_PRIORITY
  let suitability_score :=
    if donation.item_name = demand.item_name then 1.0 * W_SUITABILITY else 0.0
  priority_score + distance_score + suitability_score

/-- The distance computed for one candidate (src/main.py lines 61-64). -/
noncomputable def demandDist (donation : Donation) (demand : DemandRecord) : ℝ :=
  calculate_distance donation.donor_lat donation.donor_lng
    demand.schools.location_lat demand.schools.location_lng

/-- The score of a candidate at its computed distance. -/
noncomputable def candScore (donation : Donation) (demand : DemandRecord) : ℝ :=
  totalScore donation demand (demandDist donation demand)

/-- The category-and-unmet-quantity filter of the demands query
(src/main.py lines 43-47). -/
def demandPred (donation : Donation) (demand : DemandRecord) : Bool :=
  demand.item_category == donation.item_category &&
    decide (demand.quantity_fulfilled < demand.quantity_needed)

/-- The best-of-N scan of src/main.py lines 57-81, carrying the current
best match and best score (initially none and -1). -/
noncomputable def matchLoop (donation : Donation) :
    List DemandRecord → Option DemandRecord → ℝ → Option DemandRecord
  | [], best_match, _ => best_match
  | demand :: rest, best_match, best_score =>
    if demandDist donation demand > MAX_DISTANCE then
      matchLoop donation rest best_match best_score
    else if candScore donation demand > best_score then
      matchLoop donation rest (some demand) (candScore donation demand)
    else
      matchLoop donation rest best_match best_score

/-- find_best_match from src/main.py lines 35-82, with the data-store
query modelled as filtering the demands table held in the state. -/
noncomputable def find_best_match (donation : Donation)
    (demands : List DemandRecord) : Option DemandRecord :=
  let potential_demands := demands.filter (fun d => demandPred donation d)
  if potential_demands.isEmpty then none
  else matchLoop donation potential_demands none (-1)

/-- The database state: the donations and demands tables (schools are
denormalized into the demand rows, as the joined query returns them). -/
structure DB where
  donations : List Donation
  demands : List DemandRecord

/-- Fault injection for the two persistence writes of the commit step:
some e means the corresponding supabase update call raises with message e. -/
structure Faults where
  donationUpdateError : Option String
  demandUpdateError : Option String

/-- Both writes succeed. -/
def noFaults : Faults := ⟨none, none⟩

/-- The outcome of one match_donation invocation: the HTTP 200 payload, the
two distinct 404 responses (lines 102 and 110), or the 500 response. -/
inductive MatchOutcome where
  | success (donation : Donation) (matched_demand : DemandRecord)
  | notFoundPending
  | notFoundNoMatch
  | updateFailed (detail : String)

/-- The fetch filter of src/main.py lines 95-99: donation id matches and
status is pending. -/
def pendingFilter (id : ℤ) (d : Donation) : Bool :=
  d.donation_id == id && d.status == "待匹配"

/-- The donations update of src/main.py lines 115-118: set the status of
every donation with the given id. -/
def updateDonationStatus (db : DB) (id : ℤ) (newStatus : String) : DB :=
  ⟨db.donations.map
      (fun d => if d.donation_id == id then { d with status := newStatus } else d),
    db.demands⟩

/-- The demands update of src/main.py lines 121-125: set the fulfilled
quantity of every demand with the given id. -/
def updateDemandFulfilled (db : DB) (id : ℤ) (newFulfilled : ℤ) : DB :=
  ⟨db.donations,
    db.demands.map
      (fun d =>
        if d.demand_id == id then { d with quantity_fulfilled := newFulfilled } else d)⟩

/-- match_donation from src/main.py lines 89-136.  The try block is
modelled by the fault record: a some on the first fault aborts before
either write is applied; a some on the second aborts after the first
write is applied, and no rollback happens. -/
noncomputable def match_donation (db : DB) (faults : Faults)
    (donation_id : ℤ) : MatchOutcome × DB :=
  match db.donations.filter (pendingFilter donation_id) with
  | [] => (MatchOutcome.notFoundPending, db)
  | donation :: _ =>
    match find_best_match donation db.demands with
    | none => (MatchOutcome.notFoundNoMatch, db)
    | some best_demand =>
      match faults.donationUpdateError with
      | some e => (MatchOutcome.updateFailed ("更新数据库失败: " ++ e), db)
      | none =>
        let db1 := updateDonationStatus db donation_id "已匹配"
        match faults.demandUpdateError with
        | some e => (MatchOutcome.updateFailed ("更新数据库失败: " ++ e), db1)
        | none =>
          let new_fulfilled := best_demand.quantity_fulfilled + donation.quantity
          (MatchOutcome.success donation best_demand,
            updateDemandFulfilled db1 best_demand.demand_id new_fulfilled)

/-- The scoring formula as the spec words it, for comparison with the
code's totalScore.  Modelled from the spec: priority score
(priority / 5) x 0.5, distance score (1 - d / 200) x 0.3, suitability
0.2 on exact name equality. -/
noncomputable def specScore (donation : Donation) (demand : DemandRecord)
    (d : ℝ) : ℝ :=
  ((demand.priority : ℝ) / 5) * 0.5 + (1 - d / 200) * 0.3 +
    (if donation.item_name = demand.item_name then 0.2 else 0.0)

section Fixtures

/-- A school at the origin, used for concrete evaluations. -/
def school0 : School := ⟨0, 0⟩

/-- A concrete demand: priority 5, 19 of 20 fulfilled, matching name. -/
def dm0 : DemandRecord := ⟨1, "books", "Math Textbook", 5, 20, 19, school0⟩

/-- A concrete later demand with the same score as dm0. -/
def dmB : DemandRecord := ⟨2, "books", "Math Textbook", 5, 30, 0, school0⟩

/-- A concrete pending donation of quantity q at the origin. -/
def don0 (q : ℤ) : Donation := ⟨1, "books", "Math Textbook", q, 0, 0, "待匹配"⟩

/-- A database holding the one donation and the one demand. -/
def db0 (q : ℤ) : DB := ⟨[don0 q], [dm0]⟩

/-- The demand row dm0 after a successful commit of a quantity 1 donation. -/
def dmU : DemandRecord := ⟨1, "books", "Math Textbook", 5, 20, 20, school0⟩

/-- An already matched donation. -/
def donM : Donation := ⟨1, "books", "Math Textbook", 10, 0, 0, "已匹配"⟩

/-- A database whose only donation is already matched. -/
def dbM : DB := ⟨[donM], [dm0]⟩

end Fixtures

section DistanceLemmas

lemma atan2_zero_one : atan2 0 1 = 0 := by
  unfold atan2
  rw [if_pos (by norm_num : (0:ℝ) < 1)]
  simp [Real.arctan_zero]

lemma calculate_distance_self (lat lon : ℝ) :
    calculate_distance lat lon lat lon = 0 := by
  unfold calculate_distance radians
  simp [atan2_zero_one]

lemma calculate_distance_comm (lat1 lon1 lat2 lon2 : ℝ) :
    calculate_distance lat1 lon1 lat2 lon2 =
      calculate_distance lat2 lon2 lat1 lon1 := by
  unfold calculate_distance
  dsimp only
  have hlat : radians (lat1 - lat2) = -(radians (lat2 - lat1)) := by
    unfold radians; ring
  have hlon : radians (lon1 - lon2) = -(radians (lon2 - lon1)) := by
    unfold radians; ring
  simp only [hlat, hlon, neg_div, Real.sin_neg]
  ring_nf

end DistanceLemmas

section ScoreLemmas

lemma totalScore_eq_specScore (donation : Donation) (demand : DemandRecord)
    (d : ℝ) : totalScore donation demand d = specScore donation demand d := by
  unfold totalScore specScore W_PRIORITY W_DISTANCE W_SUITABILITY MAX_DISTANCE
  dsimp only
  split_ifs <;> ring

lemma totalScore_nonneg (donation : Donation) (demand : DemandRecord)
    (d : ℝ) (hp : 0 ≤ demand.priority) (hd : d ≤ 200) :
    0 ≤ totalScore donation demand d := by
  unfold totalScore W_PRIORITY W_DISTANCE W_SUITABILITY MAX_DISTANCE
  dsimp only
  have hp' : (0:ℝ) ≤ (demand.priority : ℝ) := by exact_mod_cast hp
  split_ifs <;> nlinarith

end ScoreLemmas

section LoopLemmas

lemma matchLoop_acc_isSome (donation : Donation) (l : List DemandRecord) :
    ∀ (b : DemandRecord) (s : ℝ), (matchLoop donation l (some b) s).isSome := by
  induction l with
  | nil => intro b s; rfl
  | cons e rest ih =>
    intro b s
    unfold matchLoop
    split
    · exact ih b s
    · split
      · exact ih e _
      · exact ih b s

lemma matchLoop_stay (donation : Donation) (l : List DemandRecord) :
    ∀ (acc : Option DemandRecord) (s : ℝ),
      (∀ dm ∈ l, ¬ demandDist donation dm > MAX_DISTANCE →
        candScore donation dm ≤ s) →
      matchLoop donation l acc s = acc := by
  induction l with
  | nil => intro acc s _; rfl
  | cons e rest ih =>
    intro acc s h
    unfold matchLoop
    split
    · exact ih acc s (fun dm hm => h dm (List.mem_cons_of_mem e hm))
    · rename_i hde
      split
      · rename_i hsc
        exact absurd hsc (not_lt.mpr (h e (List.mem_cons_self e rest) hde))
      · exact ih acc s (fun dm hm => h dm (List.mem_cons_of_mem e hm))

lemma matchLoop_first (donation : Donation) (d : DemandRecord)
    (l2 : List DemandRecord)
    (hd : ¬ demandDist donation d > MAX_DISTANCE)
    (hafter : ∀ dm ∈ l2, ¬ demandDist donation dm > MAX_DISTANCE →
      candScore donation dm ≤ candScore donation d) :
    ∀ (l1 : List DemandRecord) (acc : Option DemandRecord) (s : ℝ),
      s < candScore donation d →
      (∀ dm ∈ l1, ¬ demandDist donation dm > MAX_DISTANCE →
        candScore donation dm < candScore donation d) →
      matchLoop donation (l1 ++ d :: l2) acc s = some d := by
  intro l1
  induction l1 with
  | nil =>
    intro acc s hs _
    simp only [List.nil_append]
    unfold matchLoop
    rw [if_neg hd, if_pos hs]
    exact matchLoop_stay donation l2 (some d) _ hafter
  | cons e l1x ih =>
    intro acc s hs hbefore
    simp only [List.cons_append]
    unfold matchLoop
    split
    · exact ih acc s hs (fun dm hm => hbefore dm (List.mem_cons_of_mem e hm))
    · rename_i hde
      split
      · exact ih (some e) _ (hbefore e (List.mem_cons_self e l1x) hde)
          (fun dm hm => hbefore dm (List.mem_cons_of_mem e hm))
      · exact ih acc s hs (fun dm hm => hbefore dm (List.mem_cons_of_mem e hm))

lemma matchLoop_dist (donation : Donation) (l : List DemandRecord) :
    ∀ (acc : Option DemandRecord) (s : ℝ) (d : DemandRecord),
      (∀ b, acc = some b → ¬ demandDist donation b > MAX_DISTANCE) →
      matchLoop donation l acc s = some d →
      ¬ demandDist donation d > MAX_DISTANCE := by
  induction l with
  | nil => intro acc s d hacc h; exact hacc d h
  | cons e rest ih =>
    intro acc s d hacc h
    unfold matchLoop at h
    split at h
    · exact ih acc s d hacc h
    · rename_i hde
      split at h
      · refine ih (some e) _ d (fun b hb => ?_) h
        cases hb
        exact hde
      · exact ih acc s d hacc h

lemma matchLoop_isSome (donation : Donation) (l : List DemandRecord) :
    ∀ (acc : Option DemandRecord) (s : ℝ),
      (∃ dm ∈ l, ¬ demandDist donation dm > MAX_DISTANCE ∧
        s < candScore donation dm) →
      (matchLoop donation l acc s).isSome := by
  induction l with
  | nil =>
    intro acc s h
    obtain ⟨dm, hm, _⟩ := h
    exact absurd hm (List.not_mem_nil dm)
  | cons e rest ih =>
    intro acc s h
    obtain ⟨dm, hm, hdm, hsc⟩ := h
    unfold matchLoop
    split
    · rename_i hde
      rcases List.mem_cons.mp hm with rfl | hmx
      · exact absurd hde hdm
      · exact ih acc s ⟨dm, hmx, hdm, hsc⟩
    · split
      · exact matchLoop_acc_isSome donation rest e _
      · rename_i hde hsc2
        rcases List.mem_cons.mp hm with rfl | hmx
        · exact absurd hsc hsc2
        · exact ih acc s ⟨dm, hmx, hdm, hsc⟩

end LoopLemmas

section FixtureLemmas

lemma demandDist_don0_dm0 (q : ℤ) : demandDist (don0 q) dm0 = 0 := by
  unfold demandDist don0 dm0 school0
  exact calculate_distance_self 0 0

lemma demandDist_don0_dmB (q : ℤ) : demandDist (don0 q) dmB = 0 := by
  unfold demandDist don0 dmB school0
  exact calculate_distance_self 0 0

lemma candScore_don0_dm0 (q : ℤ) : candScore (don0 q) dm0 = 1 := by
  unfold candScore
  rw [demandDist_don0_dm0]
  unfold totalScore W_PRIORITY W_DISTANCE W_SUITABILITY MAX_DISTANCE don0 dm0
  dsimp only
  rw [if_pos rfl]
  norm_num

lemma candScore_don0_dmB (q : ℤ) : candScore (don0 q) dmB = 1 := by
  unfold candScore
  rw [demandDist_don0_dmB]
  unfold totalScore W_PRIORITY W_DISTANCE W_SUITABILITY MAX_DISTANCE don0 dmB
  dsimp only
  rw [if_pos rfl]
  norm_num

lemma find_best_match_db0 (q : ℤ) : find_best_match (don0 q) [dm0] = some dm0 := by
  unfold find_best_match
  have hfil : List.filter (fun d => demandPred (don0 q) d) [dm0] = [dm0] := rfl
  rw [hfil]
  rw [if_neg (by decide : ¬ ([dm0].isEmpty = true))]
  unfold matchLoop
  rw [if_neg (by rw [demandDist_don0_dm0]; unfold MAX_DISTANCE; norm_num),
    if_pos (by rw [candScore_don0_dm0]; norm_num)]
  unfold matchLoop
  rfl

lemma match_donation_db0_ok (q : ℤ) :
    match_donation (db0 q) noFaults 1 =
      (MatchOutcome.success (don0 q) dm0,
        updateDemandFulfilled (updateDonationStatus (db0 q) 1 "已匹配") 1 (19 + q)) := by
  unfold match_donation
  have hf : (db0 q).donations.filter (pendingFilter 1) = [don0 q] := rfl
  rw [hf]
  dsimp only
  have hd : (db0 q).demands = [dm0] := rfl
  rw [hd, find_best_match_db0 q]
  dsimp only [noFaults]
  rfl

end FixtureLemmas

section InversionLemmas

lemma updateDemandFulfilled_donations (db : DB) (id v : ℤ) :
    (updateDemandFulfilled db id v).donations = db.donations := rfl

lemma updateDonationStatus_matched (db : DB) (id : ℤ) :
    ∀ d ∈ (updateDonationStatus db id "已匹配").donations,
      d.donation_id = id → d.status = "已匹配" := by
  intro d hd hid
  unfold updateDonationStatus at hd
  simp only [List.mem_map] at hd
  obtain ⟨d0, hd0, rfl⟩ := hd
  by_cases hb : d0.donation_id == id
  · rw [if_pos hb]
  · rw [if_neg hb] at hid ⊢
    simp only [beq_iff_eq] at hb
    exact absurd hid hb

lemma updateDemandFulfilled_set (db : DB) (id v : ℤ) :
    ∀ d ∈ (updateDemandFulfilled db id v).demands,
      d.demand_id = id → d.quantity_fulfilled = v := by
  intro d hd hid
  unfold updateDemandFulfilled at hd
  simp only [List.mem_map] at hd
  obtain ⟨d0, hd0, rfl⟩ := hd
  by_cases hb : d0.demand_id == id
  · rw [if_pos hb]
  · rw [if_neg hb] at hid ⊢
    simp only [beq_iff_eq] at hb
    exact absurd hid hb

lemma match_donation_notFound (db : DB) (faults : Faults) (id : ℤ)
    (h : ∀ d ∈ db.donations, d.donation_id = id → d.status ≠ "待匹配") :
    match_donation db faults id = (MatchOutcome.notFoundPending, db) := by
  have hf : db.donations.filter (pendingFilter id) = [] := by
    rw [List.filter_eq_nil_iff]
    intro d hd
    unfold pendingFilter
    simp only [Bool.and_eq_true, beq_iff_eq, not_and]
    intro h1
    exact h d hd h1
  unfold match_donation
  rw [hf]

lemma match_donation_success_inv (db db2 : DB) (faults : Faults) (id : ℤ)
    (don : Donation) (dm : DemandRecord)
    (h : match_donation db faults id = (MatchOutcome.success don dm, db2)) :
    db2 = updateDemandFulfilled (updateDonationStatus db id "已匹配")
      dm.demand_id (dm.quantity_fulfilled + don.quantity) := by
  unfold match_donation at h
  cases hf : db.donations.filter (pendingFilter id) with
  | nil =>
    rw [hf] at h
    exact MatchOutcome.noConfusion (congrArg Prod.fst h)
  | cons d rest =>
    rw [hf] at h
    dsimp only at h
    cases hm : find_best_match d db.demands with
    | none =>
      rw [hm] at h
      exact MatchOutcome.noConfusion (congrArg Prod.fst h)
    | some bd =>
      rw [hm] at h
      dsimp only at h
      cases hfe : faults.donationUpdateError with
      | some e =>
        rw [hfe] at h
        exact MatchOutcome.noConfusion (congrArg Prod.fst h)
      | none =>
        rw [hfe] at h
        dsimp only at h
        cases hfe2 : faults.demandUpdateError with
        | some e =>
          rw [hfe2] at h
          exact MatchOutcome.noConfusion (congrArg Prod.fst h)
        | none =>
          rw [hfe2] at h
          dsimp only at h
          have h1 : MatchOutcome.success d bd = MatchOutcome.success don dm :=
            congrArg Prod.fst h
          have h2 := congrArg Prod.snd h
          dsimp only at h2
          injection h1 with hdon hbd
          subst hdon
          subst hbd
          exact h2.symm

end InversionLemmas

/-- C9: calculate_distance is zero on a repeated coordinate pair and is
symmetric in its two coordinate pairs. -/
theorem C9_distance_self_symm (lat1 lon1 lat2 lon2 : ℝ) :
    calculate_distance lat1 lon1 lat1 lon1 = 0 ∧
    calculate_distance lat1 lon1 lat2 lon2 =
      calculate_distance lat2 lon2 lat1 lon1 :=
  ⟨calculate_distance_self lat1 lon1, calculate_distance_comm lat1 lon1 lat2 lon2⟩

/-- C2: for any donation, demand and distance at most 200 km, the score
computed by the code equals exactly the spec formula: priority over 5
times 0.5, plus (1 - d over 200) times 0.3, plus 0.2 exactly when the
item names are equal character for character. -/
theorem C2_score_formula (donation : Donation) (demand : DemandRecord)
    (d : ℝ) (_hd : d ≤ 200) :
    totalScore donation demand d = specScore donation demand d :=
  totalScore_eq_specScore donation demand d

theorem C2_score_formula_witness :
    (100:ℝ) ≤ 200 ∧ totalScore (don0 10) dm0 100 = specScore (don0 10) dm0 100 :=
  ⟨by norm_num, C2_score_formula (don0 10) dm0 100 (by norm_num)⟩

/-- C7: with priority in the interval from 0 to 5 and distance between 0
and 200 km, the computed score lies in the closed interval from 0 to 1. -/
theorem C7_score_in_unit_interval (donation : Donation) (demand : DemandRecord)
    (d : ℝ) (hp0 : 0 ≤ demand.priority) (hp5 : demand.priority ≤ 5)
    (hd0 : 0 ≤ d) (hd200 : d ≤ 200) :
    0 ≤ totalScore donation demand d ∧ totalScore donation demand d ≤ 1 := by
  unfold totalScore W_PRIORITY W_DISTANCE W_SUITABILITY MAX_DISTANCE
  dsimp only
  have hp0x : (0:ℝ) ≤ (demand.priority : ℝ) := by exact_mod_cast hp0
  have hp5x : ((demand.priority : ℝ)) ≤ 5 := by exact_mod_cast hp5
  split_ifs <;> constructor <;> nlinarith

theorem C7_score_in_unit_interval_witness :
    0 ≤ totalScore (don0 10) dm0 100 ∧ totalScore (don0 10) dm0 100 ≤ 1 :=
  C7_score_in_unit_interval (don0 10) dm0 100 (by decide) (by decide)
    (by norm_num) (by norm_num)

/-- C8: the score is strictly decreasing in the distance (other inputs
fixed, distances at most 200 km) and strictly increasing in the priority
(other inputs fixed). -/
theorem C8_score_monotone :
    (∀ (donation : Donation) (demand : DemandRecord) (d1 d2 : ℝ),
      d1 < d2 → d2 ≤ 200 →
      totalScore donation demand d2 < totalScore donation demand d1) ∧
    (∀ (donation : Donation) (demand : DemandRecord) (d : ℝ) (p1 p2 : ℤ),
      p2 < p1 →
      totalScore donation { demand with priority := p2 } d <
        totalScore donation { demand with priority := p1 } d) := by
  constructor
  · intro donation demand d1 d2 h12 h200
    unfold totalScore W_PRIORITY W_DISTANCE W_SUITABILITY MAX_DISTANCE
    dsimp only
    split_ifs <;> nlinarith
  · intro donation demand d p1 p2 hp
    unfold totalScore W_PRIORITY W_DISTANCE W_SUITABILITY MAX_DISTANCE
    dsimp only
    have hpx : ((p2:ℝ)) < (p1:ℝ) := by exact_mod_cast hp
    split_ifs <;> nlinarith

theorem C8_score_monotone_witness :
    totalScore (don0 10) dm0 150 < totalScore (don0 10) dm0 50 ∧
    totalScore (don0 10) { dm0 with priority := 2 } 100 <
      totalScore (don0 10) { dm0 with priority := 4 } 100 :=
  ⟨C8_score_monotone.1 (don0 10) dm0 50 150 (by norm_num) (by norm_num),
    C8_score_monotone.2 (don0 10) dm0 100 4 2 (by norm_num)⟩

/-- C4: any demand returned by find_best_match lies within 200 km of the
donor; a candidate farther than 200 km is never the returned match. -/
theorem C4_within_cutoff (donation : Donation)
    (demands : List DemandRecord) (d : DemandRecord)
    (h : find_best_match donation demands = some d) :
    demandDist donation d ≤ 200 := by
  unfold find_best_match at h
  dsimp only at h
  split at h
  · exact Option.noConfusion h
  · have hnd := matchLoop_dist donation
      (demands.filter (fun x => demandPred donation x)) none (-1) d
      (fun b hb => Option.noConfusion hb) h
    exact not_lt.mp hnd

theorem C4_within_cutoff_witness : demandDist (don0 10) dm0 ≤ 200 :=
  C4_within_cutoff (don0 10) [dm0] dm0 (find_best_match_db0 10)

/-- C3: when a later candidate ties the maximal score of an earlier
surviving candidate, find_best_match returns the earlier one; a later
candidate replaces the current best only on a strictly greater score. -/
theorem C3_tie_prefers_earlier (donation : Donation)
    (l1 l2 l3 : List DemandRecord) (d1 d2 : DemandRecord)
    (hpred1 : demandPred donation d1 = true)
    (hdist1 : demandDist donation d1 ≤ 200)
    (hprio1 : 0 ≤ d1.priority)
    (hpred2 : demandPred donation d2 = true)
    (hdist2 : demandDist donation d2 ≤ 200)
    (htie : candScore donation d2 = candScore donation d1)
    (hmax : ∀ dm ∈ l1 ++ (l2 ++ l3), demandPred donation dm = true →
      demandDist donation dm ≤ 200 →
      candScore donation dm ≤ candScore donation d1)
    (hfirst : ∀ dm ∈ l1, demandPred donation dm = true →
      demandDist donation dm ≤ 200 →
      candScore donation dm < candScore donation d1) :
    find_best_match donation (l1 ++ d1 :: (l2 ++ d2 :: l3)) = some d1 := by
  unfold find_best_match
  dsimp only
  have hsplit : (l1 ++ d1 :: (l2 ++ d2 :: l3)).filter
        (fun d => demandPred donation d) =
      (l1.filter (fun d => demandPred donation d)) ++ d1 ::
        ((l2 ++ d2 :: l3).filter (fun d => demandPred donation d)) := by
    rw [List.filter_append, List.filter_cons_of_pos]
    exact hpred1
  rw [hsplit, if_neg (by simp)]
  apply matchLoop_first donation d1
    ((l2 ++ d2 :: l3).filter (fun d => demandPred donation d))
    (not_lt.mpr hdist1)
  · intro dm hdm hnd
    have hmf := List.mem_filter.mp hdm
    have hdle : demandDist donation dm ≤ 200 := not_lt.mp hnd
    rcases List.mem_append.mp hmf.1 with hm2 | hm3
    · exact hmax dm (List.mem_append.mpr (Or.inr (List.mem_append.mpr (Or.inl hm2))))
        hmf.2 hdle
    · rcases List.mem_cons.mp hm3 with rfl | hm4
      · exact le_of_eq htie
      · exact hmax dm (List.mem_append.mpr (Or.inr (List.mem_append.mpr (Or.inr hm4))))
          hmf.2 hdle
  · exact lt_of_lt_of_le (by norm_num)
      (totalScore_nonneg donation d1 (demandDist donation d1) hprio1 hdist1)
  · intro dm hdm hnd
    have hmf := List.mem_filter.mp hdm
    exact hfirst dm hmf.1 hmf.2 (not_lt.mp hnd)

theorem C3_tie_prefers_earlier_witness :
    find_best_match (don0 10) ([] ++ dm0 :: ([] ++ dmB :: [])) = some dm0 :=
  C3_tie_prefers_earlier (don0 10) [] [] [] dm0 dmB rfl
    (by rw [demandDist_don0_dm0]; norm_num) (by decide) rfl
    (by rw [demandDist_don0_dmB]; norm_num)
    (by rw [candScore_don0_dmB, candScore_don0_dm0])
    (by intro dm hdm; simp at hdm) (by intro dm hdm; simp at hdm)

/-- C10: if some candidate passes the category-and-quantity filter and
lies within 200 km, and every filtered candidate has nonnegative
priority, then find_best_match returns some demand. -/
theorem C10_returns_some (donation : Donation)
    (demands : List DemandRecord) (dm : DemandRecord)
    (hmem : dm ∈ demands) (hpred : demandPred donation dm = true)
    (hdist : demandDist donation dm ≤ 200)
    (hprio : ∀ d ∈ demands, demandPred donation d = true → 0 ≤ d.priority) :
    ∃ d, find_best_match donation demands = some d := by
  unfold find_best_match
  dsimp only
  have hmemf : dm ∈ demands.filter (fun d => demandPred donation d) :=
    List.mem_filter.mpr ⟨hmem, hpred⟩
  have hne : ¬ ((demands.filter (fun d => demandPred donation d)).isEmpty = true) := by
    intro hemp
    rw [List.isEmpty_iff] at hemp
    rw [hemp] at hmemf
    exact List.not_mem_nil dm hmemf
  rw [if_neg hne]
  refine Option.isSome_iff_exists.mp
    (matchLoop_isSome donation _ none (-1) ⟨dm, hmemf, not_lt.mpr hdist, ?_⟩)
  exact lt_of_lt_of_le (by norm_num)
    (totalScore_nonneg donation dm (demandDist donation dm) (hprio dm hmem hpred) hdist)

theorem C10_returns_some_witness : ∃ d, find_best_match (don0 10) [dm0] = some d :=
  C10_returns_some (don0 10) [dm0] dm0 (List.mem_singleton.mpr rfl) rfl
    (by rw [demandDist_don0_dm0]; norm_num) (by decide)


/-- C5: when the donation-status write succeeds and the fulfilled-quantity
write fails, match_donation surfaces updateFailed with the underlying
detail and the donation is left marked matched (no rollback). -/
theorem C5_partial_write_failure (db : DB) (id : ℤ) (e : String)
    (don : Donation) (rest : List Donation) (dm : DemandRecord) (d : Donation)
    (hfetch : db.donations.filter (pendingFilter id) = don :: rest)
    (hmatch : find_best_match don db.demands = some dm)
    (hd : d ∈ (updateDonationStatus db id "已匹配").donations)
    (hid : d.donation_id = id) :
    match_donation db ⟨none, some e⟩ id =
      (MatchOutcome.updateFailed ("更新数据库失败: " ++ e),
        updateDonationStatus db id "已匹配") ∧
    d.status = "已匹配" := by
  constructor
  · unfold match_donation
    rw [hfetch]
    dsimp only
    rw [hmatch]
  · exact updateDonationStatus_matched db id d hd hid

theorem C5_partial_write_failure_witness :
    match_donation (db0 10) ⟨none, some "boom"⟩ 1 =
      (MatchOutcome.updateFailed ("更新数据库失败: " ++ "boom"),
        updateDonationStatus (db0 10) 1 "已匹配") ∧
    donM.status = "已匹配" :=
  C5_partial_write_failure (db0 10) 1 "boom" (don0 10) [] dm0 donM rfl
    (find_best_match_db0 10) (List.mem_singleton.mpr rfl) rfl

/-- C6: a donation id whose stored donation is not pending yields the
notFoundPending outcome with no state change; in particular a second
match_donation call on an id just matched successfully yields
notFoundPending. -/
theorem C6_not_pending_not_found :
    (∀ (db : DB) (faults : Faults) (id : ℤ),
      (∀ d ∈ db.donations, d.donation_id = id → d.status ≠ "待匹配") →
      match_donation db faults id = (MatchOutcome.notFoundPending, db)) ∧
    (∀ (db db2 : DB) (id : ℤ) (don : Donation) (dm : DemandRecord),
      match_donation db noFaults id = (MatchOutcome.success don dm, db2) →
      match_donation db2 noFaults id = (MatchOutcome.notFoundPending, db2)) := by
  constructor
  · exact match_donation_notFound
  · intro db db2 id don dm h
    apply match_donation_notFound
    have hdb2 := match_donation_success_inv db db2 noFaults id don dm h
    intro d hd hid
    rw [hdb2, updateDemandFulfilled_donations] at hd
    have hst := updateDonationStatus_matched db id d hd hid
    rw [hst]
    decide

theorem C6_not_pending_not_found_witness :
    match_donation dbM noFaults 1 = (MatchOutcome.notFoundPending, dbM) ∧
    match_donation (updateDemandFulfilled (updateDonationStatus (db0 10) 1 "已匹配")
        1 (19 + 10)) noFaults 1 =
      (MatchOutcome.notFoundPending,
        updateDemandFulfilled (updateDonationStatus (db0 10) 1 "已匹配") 1 (19 + 10)) :=
  ⟨C6_not_pending_not_found.1 dbM noFaults 1 (by decide),
    C6_not_pending_not_found.2 (db0 10) _ 1 (don0 10) dm0 (match_donation_db0_ok 10)⟩

/-- C1 counterexample: a pending donation of quantity 10 is matched to a
demand with 19 of 20 fulfilled; the commit succeeds and writes a
fulfilled quantity of 29, exceeding the needed quantity of 20, so the
claimed invariant fails on the code. -/
theorem C1_counterexample :
    (don0 10).status = "待匹配" ∧
    dm0.quantity_fulfilled < dm0.quantity_needed ∧
    (match_donation (db0 10) noFaults 1).1 = MatchOutcome.success (don0 10) dm0 ∧
    dm0.quantity_needed < dm0.quantity_fulfilled + (don0 10).quantity ∧
    (match_donation (db0 10) noFaults 1).2.demands =
      [⟨1, "books", "Math Textbook", 5, 20, 29, school0⟩] := by
  refine ⟨rfl, by decide, ?_, by decide, ?_⟩
  · rw [match_donation_db0_ok 10]
  · rw [match_donation_db0_ok 10]
    rfl

/-- C1 amended: after a successful commit the matched demand row holds
exactly its previous fulfilled quantity plus the donation quantity, and
this stays at most the needed quantity provided the donation quantity is
at most the remaining unmet quantity (a bound the code itself does not
enforce). -/
theorem C1_fulfilled_bound (db db2 : DB) (id : ℤ) (don : Donation)
    (dm dm2 : DemandRecord)
    (h : match_donation db noFaults id = (MatchOutcome.success don dm, db2))
    (hq : don.quantity ≤ dm.quantity_needed - dm.quantity_fulfilled)
    (hmem : dm2 ∈ db2.demands) (hid : dm2.demand_id = dm.demand_id)
    (hneed : dm2.quantity_needed = dm.quantity_needed) :
    dm2.quantity_fulfilled = dm.quantity_fulfilled + don.quantity ∧
    dm2.quantity_fulfilled ≤ dm2.quantity_needed := by
  have hdb2 := match_donation_success_inv db db2 noFaults id don dm h
  rw [hdb2] at hmem
  have hset := updateDemandFulfilled_set _ dm.demand_id _ dm2 hmem hid
  refine ⟨hset, ?_⟩
  rw [hset, hneed]
  omega

theorem C1_fulfilled_bound_witness :
    dmU.quantity_fulfilled = dm0.quantity_fulfilled + (don0 1).quantity ∧
    dmU.quantity_fulfilled ≤ dmU.quantity_needed :=
  C1_fulfilled_bound (db0 1) _ 1 (don0 1) dm0 dmU (match_donation_db0_ok 1)
    (by decide) (List.mem_singleton.mpr rfl) rfl rfl

end StarApi
